import Mathlib

/-!
Verification of `diplom_work_oop.py` — a cat-image backup script that
resolves an image URL from cataas.com, prepares a folder on Yandex.Disk,
triggers a server-side upload-by-URL, polls the operation status, and
persists a JSON record.

The Python source is shallowly embedded below: pure helpers become Lean
functions; every network interaction is represented by an explicit response
value (or response oracle) passed in as an argument; Python exceptions that
the source catches are represented by explicit constructors; mutable state
(the manager's `uploaded_files` list) is threaded explicitly.
-/

namespace CatBackup

/-! ## `BackupManager._sanitize_filename` (source lines 309–325)

```python
invalid_chars = '<>:"/\\|?* '
for char in invalid_chars:
    text = text.replace(char, '_')
return text[:100]
```

`str.replace(char, '_')` for a single-character pattern replaces every
occurrence of that character; we model the text as a `List Char` and each
`replace` as a `map`.  `text[:100]` is `List.take 100`. -/

/-- The forbidden characters `<>:"/\|?*` plus the space character,
in the order the source iterates over them. -/
def invalid_chars : List Char :=
  ['<', '>', ':', '"', '/', '\\', '|', '?', '*', ' ']

/-- Python `text.replace(ch, '_')` for a one-character pattern `ch`. -/
def replaceChar (text : List Char) (ch : Char) : List Char :=
  text.map fun c => if c = ch then '_' else c

/-- `BackupManager._sanitize_filename`: sequentially replace each forbidden
character with an underscore, then truncate to 100 characters. -/
def sanitize_filename (text : List Char) : List Char :=
  (invalid_chars.foldl replaceChar text).take 100

/-- The derived file name, source line 278:
`safe_filename = self._sanitize_filename(text) + ".jpg"`. -/
def derived_filename (text : List Char) : List Char :=
  sanitize_filename text ++ ('.' :: 'j' :: 'p' :: 'g' :: [])

/-- The ten sequential single-character replacements act like one
character-wise map: `'_'` is not itself a forbidden character, so a later
pass never rewrites the output of an earlier one. -/
def sanitizeCharMap (c : Char) : Char :=
  if c ∈ invalid_chars then '_' else c

theorem foldl_replaceChar_eq_map (text : List Char) :
    invalid_chars.foldl replaceChar text = text.map sanitizeCharMap := by
  simp only [invalid_chars, List.foldl_cons, List.foldl_nil, replaceChar,
    List.map_map]
  apply List.map_congr_left
  intro c _
  by_cases h : c ∈ invalid_chars
  · simp only [invalid_chars, List.mem_cons, List.not_mem_nil, or_false] at h
    rcases h with rfl | rfl | rfl | rfl | rfl | rfl | rfl | rfl | rfl | rfl <;>
      decide
  · have h' : ¬(c = '<' ∨ c = '>' ∨ c = ':' ∨ c = '"' ∨ c = '/' ∨ c = '\\' ∨
        c = '|' ∨ c = '?' ∨ c = '*' ∨ c = ' ') := by
      simpa [invalid_chars] using h
    push_neg at h'
    obtain ⟨h1, h2, h3, h4, h5, h6, h7, h8, h9, h10⟩ := h'
    simp [Function.comp, sanitizeCharMap, invalid_chars,
      h1, h2, h3, h4, h5, h6, h7, h8, h9, h10]

theorem sanitizeCharMap_not_invalid (c : Char) :
    sanitizeCharMap c ∉ invalid_chars := by
  unfold sanitizeCharMap
  by_cases h : c ∈ invalid_chars
  · rw [if_pos h]; decide
  · rw [if_neg h]; exact h

theorem mem_sanitize_not_invalid (text : List Char) (c : Char)
    (hc : c ∈ sanitize_filename text) : c ∉ invalid_chars := by
  unfold sanitize_filename at hc
  rw [foldl_replaceChar_eq_map] at hc
  have := List.mem_of_mem_take hc
  obtain ⟨c', _, rfl⟩ := List.mem_map.mp this
  exact sanitizeCharMap_not_invalid c'

theorem sanitize_filename_length (text : List Char) :
    (sanitize_filename text).length = min 100 text.length := by
  unfold sanitize_filename
  rw [foldl_replaceChar_eq_map, List.length_take, List.length_map]

/-- C6: for every caption string containing a character of the forbidden
set `<>:"/\|?*` or the space character, the derived file name
(`_sanitize_filename(text) + ".jpg"`, source line 278) contains none of
those characters and ends in `.jpg`. -/
theorem claim_C6_derived_filename_clean (text : List Char)
    (_hbad : ∃ c ∈ text, c ∈ invalid_chars) :
    (∀ c ∈ derived_filename text, c ∉ invalid_chars) ∧
      ('.' :: 'j' :: 'p' :: 'g' :: []) <:+ derived_filename text := by
  constructor
  · intro c hc
    unfold derived_filename at hc
    rcases List.mem_append.mp hc with h | h
    · exact mem_sanitize_not_invalid text c h
    · simp only [List.mem_cons, List.not_mem_nil, or_false] at h
      rcases h with rfl | rfl | rfl | rfl <;> decide
  · exact List.suffix_append _ _

/-- Witness for C6 at the concrete caption `"a b?"`. -/
theorem claim_C6_witness :
    (∃ c ∈ ('a' :: ' ' :: 'b' :: '?' :: []), c ∈ invalid_chars) ∧
      ((∀ c ∈ derived_filename ('a' :: ' ' :: 'b' :: '?' :: []),
          c ∉ invalid_chars) ∧
        ('.' :: 'j' :: 'p' :: 'g' :: []) <:+
          derived_filename ('a' :: ' ' :: 'b' :: '?' :: [])) :=
  ⟨⟨' ', by decide, by decide⟩,
    claim_C6_derived_filename_clean _ ⟨' ', by decide, by decide⟩⟩

/-- C7: for every caption of length 250, the pre-extension name
(`_sanitize_filename(text)`) has length exactly 100: each character
replacement preserves length, and truncation to 100 is then applied. -/
theorem claim_C7_sanitize_length_250 (text : List Char)
    (hlen : text.length = 250) : (sanitize_filename text).length = 100 := by
  rw [sanitize_filename_length, hlen]
  decide

/-- Witness for C7 at the concrete caption of 250 copies of `'a'`. -/
theorem claim_C7_witness :
    (List.replicate 250 'a').length = 250 ∧
      (sanitize_filename (List.replicate 250 'a')).length = 100 :=
  ⟨List.length_replicate 250 'a',
    claim_C7_sanitize_length_250 _ (List.length_replicate 250 'a')⟩

/-! ## `YandexDiskClient` (source lines 25–162)

Network interactions are embedded as explicit response values: each
`requests.*` call is represented by the answer the remote gives (or a
transport-level `RequestException`).  `time.sleep(1)` (real time) and log
output are not modelled; the tqdm progress bar is modelled as the list of
`pbar.update(...)` deltas the loop emits. -/

/-- Outcome of one HTTP request: a transport-level
`requests.exceptions.RequestException`, or a response with a status code. -/
inductive ReqResult where
  | exc : ReqResult
  | status : Nat → ReqResult
deriving DecidableEq, Repr

/-- Python `response.raise_for_status()` raises `HTTPError` (a subclass of
`RequestException`) exactly for status codes 400–599. -/
def raise_for_status (code : Nat) : Bool :=
  decide (400 ≤ code ∧ code < 600)

/-- One poll of `GET /operations/<operation_id>`: transport failure, or a
response with a status code and the JSON body fields `status`, `progress`
and `message` (each possibly absent). -/
inductive PollResp where
  | exc : PollResp
  | resp : Nat → Option String → Option Int → Option String → PollResp
deriving DecidableEq

/-- The loop body of `YandexDiskClient._check_upload_status`
(source lines 135–159), with the poll sequence supplied as an oracle
`polls : Nat → PollResp` indexed by iteration.  Returns
(result, number of polls performed, list of `pbar.update` deltas).

```python
for _ in range(30):
    try:
        response = requests.get(url, headers=self.headers)
        response.raise_for_status()
        data = response.json()
        status = data.get('status')
        if status == 'success':
            pbar.update(100 - last_progress); return True
        elif status == 'in-progress':
            progress = data.get('progress', 0)
            pbar.update(progress - last_progress); last_progress = progress
        elif status == 'failed':
            return False
        time.sleep(1)
    except requests.exceptions.RequestException:
        return False
return False
``` -/
def check_upload_status_loop (polls : Nat → PollResp) (fuel i : Nat)
    (last_progress : Int) : Bool × Nat × List Int :=
  match fuel with
  | 0 => (false, 0, [])
  | f + 1 =>
    match polls i with
    | PollResp.exc => (false, 1, [])
    | PollResp.resp code st prog _msg =>
      if raise_for_status code then (false, 1, [])
      else if st = some "success" then (true, 1, [100 - last_progress])
      else if st = some "in-progress" then
        let progress := prog.getD 0
        let r := check_upload_status_loop polls f (i + 1) progress
        (r.1, r.2.1 + 1, (progress - last_progress) :: r.2.2)
      else if st = some "failed" then (false, 1, [])
      else
        let r := check_upload_status_loop polls f (i + 1) last_progress
        (r.1, r.2.1 + 1, r.2.2)

/-- `YandexDiskClient._check_upload_status` (source lines 118–162):
30 iterations maximum, initial `last_progress = 0`. -/
def check_upload_status (polls : Nat → PollResp) : Bool :=
  (check_upload_status_loop polls 30 0 0).1

/-- A poll answer that keeps the loop going: no transport failure, no
HTTP-error status, and a JSON `status` that is neither `success` nor
`failed` (so `in-progress`, `pending`, absent, or anything unrecognized). -/
def pollNonTerminal : PollResp → Bool
  | PollResp.exc => false
  | PollResp.resp code st _ _ =>
    !raise_for_status code && !(st == some "success") && !(st == some "failed")

/-- A poll answer reporting `status = success` on a non-error response. -/
def pollSuccess : PollResp → Bool
  | PollResp.exc => false
  | PollResp.resp code st _ _ => !raise_for_status code && (st == some "success")

theorem check_loop_nonterminal (polls : Nat → PollResp) :
    ∀ (fuel i : Nat) (last : Int),
      (∀ k, k < fuel → pollNonTerminal (polls (i + k)) = true) →
      (check_upload_status_loop polls fuel i last).1 = false ∧
        (check_upload_status_loop polls fuel i last).2.1 = fuel := by
  intro fuel
  induction fuel with
  | zero => intro i last _; exact ⟨rfl, rfl⟩
  | succ f ih =>
    intro i last h
    have h0 : pollNonTerminal (polls i) = true := by
      simpa using h 0 (Nat.succ_pos f)
    have hrest : ∀ k, k < f → pollNonTerminal (polls (i + 1 + k)) = true := by
      intro k hk
      have := h (k + 1) (by omega)
      simpa [Nat.add_assoc, Nat.add_comm 1 k] using this
    cases hp : polls i with
    | exc => rw [hp] at h0; simp [pollNonTerminal] at h0
    | resp code st prog msg =>
      rw [hp] at h0
      simp only [pollNonTerminal, Bool.and_eq_true, Bool.not_eq_true',
        beq_eq_false_iff_ne, ne_eq] at h0
      obtain ⟨⟨hcode, hsucc⟩, hfail⟩ := h0
      have := ih (i + 1) last hrest
      have hprog := ih (i + 1) (prog.getD 0) hrest
      simp only [check_upload_status_loop, hp, hcode, if_false, hsucc,
        hfail, if_neg, Bool.false_eq_true]
      by_cases hip : st = some "in-progress" <;>
        simp_all [check_upload_status_loop]

/-- C3: if each of the 30 polls reports `in-progress` or an unrecognized
status (never `success`, `failed`, or an error), `_check_upload_status`
returns failure after exactly 30 poll iterations. -/
theorem claim_C3_timeout_after_30 (polls : Nat → PollResp)
    (h : ∀ k, k < 30 → pollNonTerminal (polls k) = true) :
    check_upload_status polls = false ∧
      (check_upload_status_loop polls 30 0 0).2.1 = 30 := by
  have := check_loop_nonterminal polls 30 0 0 (by simpa using h)
  exact this

/-- Witness for C3: a sequence all of whose polls report `in-progress`. -/
theorem claim_C3_witness :
    (∀ k, k < 30 →
        pollNonTerminal (PollResp.resp 200 (some "in-progress") (some 50) none)
          = true) ∧
      (check_upload_status
          (fun _ => PollResp.resp 200 (some "in-progress") (some 50) none)
          = false ∧
        (check_upload_status_loop
            (fun _ => PollResp.resp 200 (some "in-progress") (some 50) none)
            30 0 0).2.1 = 30) :=
  ⟨fun _ _ => by decide, claim_C3_timeout_after_30 _ (fun _ _ => by decide)⟩

theorem check_loop_success (polls : Nat → PollResp) :
    ∀ (j fuel i : Nat) (last : Int), j < fuel →
      (∀ k, k < j → pollNonTerminal (polls (i + k)) = true) →
      pollSuccess (polls (i + j)) = true →
      (check_upload_status_loop polls fuel i last).1 = true ∧
        (check_upload_status_loop polls fuel i last).2.1 = j + 1 := by
  intro j
  induction j with
  | zero =>
    intro fuel i last hlt _ hs
    cases fuel with
    | zero => omega
    | succ f =>
      rw [Nat.add_zero] at hs
      cases hp : polls i with
      | exc => rw [hp] at hs; simp [pollSuccess] at hs
      | resp code st prog msg =>
        rw [hp] at hs
        simp only [pollSuccess, Bool.and_eq_true, Bool.not_eq_true',
          beq_iff_eq] at hs
        obtain ⟨hcode, hsucc⟩ := hs
        simp [check_upload_status_loop, hp, hcode, hsucc]
  | succ j ih =>
    intro fuel i last hlt hpre hs
    cases fuel with
    | zero => omega
    | succ f =>
      have h0 : pollNonTerminal (polls i) = true := by
        simpa using hpre 0 (Nat.succ_pos j)
      have hrest : ∀ k, k < j → pollNonTerminal (polls (i + 1 + k)) = true := by
        intro k hk
        have := hpre (k + 1) (by omega)
        simpa [Nat.add_assoc, Nat.add_comm 1 k] using this
      have hs' : pollSuccess (polls (i + 1 + j)) = true := by
        have : i + 1 + j = i + (j + 1) := by omega
        rw [this]; exact hs
      cases hp : polls i with
      | exc => rw [hp] at h0; simp [pollNonTerminal] at h0
      | resp code st prog msg =>
        rw [hp] at h0
        simp only [pollNonTerminal, Bool.and_eq_true, Bool.not_eq_true',
          beq_eq_false_iff_ne, ne_eq] at h0
        obtain ⟨⟨hcode, hsucc⟩, hfail⟩ := h0
        have hrec := ih f (i + 1) last (by omega) hrest hs'
        have hrecp := ih f (i + 1) (prog.getD 0) (by omega) hrest hs'
        by_cases hip : st = some "in-progress" <;>
          simp_all [check_upload_status_loop]

/-- C4: whenever the first `j` polls keep the loop going and poll `j`
(within the 30-iteration budget) reports `status = success`,
`_check_upload_status` returns success immediately at that iteration —
exactly `j + 1` polls are performed — whatever progress values were
reported along the way or at that point. -/
theorem claim_C4_success_immediate (polls : Nat → PollResp) (j : Nat)
    (hj : j < 30)
    (hpre : ∀ k, k < j → pollNonTerminal (polls k) = true)
    (hs : pollSuccess (polls j) = true) :
    check_upload_status polls = true ∧
      (check_upload_status_loop polls 30 0 0).2.1 = j + 1 := by
  have := check_loop_success polls j 30 0 0 hj (by simpa using hpre)
    (by simpa using hs)
  exact this

/-- Witness for C4: two `in-progress` polls, then `success` with a partial
progress value of 17 at the third poll. -/
theorem claim_C4_witness :
    (2 < 30 ∧
      (∀ k, k < 2 →
        pollNonTerminal
          ((fun n => if n < 2
              then PollResp.resp 200 (some "in-progress") (some 40) none
              else PollResp.resp 200 (some "success") (some 17) none) k)
          = true) ∧
      pollSuccess
        ((fun n => if n < 2
            then PollResp.resp 200 (some "in-progress") (some 40) none
            else PollResp.resp 200 (some "success") (some 17) none) 2)
        = true) ∧
      (check_upload_status
          (fun n => if n < 2
            then PollResp.resp 200 (some "in-progress") (some 40) none
            else PollResp.resp 200 (some "success") (some 17) none)
          = true ∧
        (check_upload_status_loop
            (fun n => if n < 2
              then PollResp.resp 200 (some "in-progress") (some 40) none
              else PollResp.resp 200 (some "success") (some 17) none)
            30 0 0).2.1 = 2 + 1) :=
  ⟨⟨by decide, by decide, by decide⟩,
    claim_C4_success_immediate _ 2 (by decide) (by decide) (by decide)⟩

/-- Python `str.split(sep)` for a nonempty separator, scanning left to
right with non-overlapping matches; the fuel argument (instantiated with
the string length, which the scan never exhausts) makes the recursion
structural.  Python raises `ValueError` on an empty separator; the source
only splits on `'operation_id='`. -/
def py_split_fuel (sep : List Char) (fuel : Nat) (s : List Char) :
    List (List Char) :=
  match fuel with
  | 0 => [s]
  | f + 1 =>
    match s with
    | [] => [[]]
    | c :: rest =>
      if sep.isPrefixOf (c :: rest) then
        [] :: py_split_fuel sep f (rest.drop (sep.length - 1))
      else
        match py_split_fuel sep f rest with
        | [] => [[c]]
        | piece :: pieces => (c :: piece) :: pieces

/-- Python `s.split(sep)` (nonempty `sep`). -/
def py_split (sep s : List Char) : List (List Char) :=
  py_split_fuel sep s.length s

/-- Python `s.split(sep)[-1]`: the piece after the last non-overlapping
occurrence of `sep`, or `s` itself when `sep` does not occur
(`py_split` never returns an empty list, so the default is not used). -/
def split_last (s sep : List Char) : List Char :=
  (py_split sep s).getLastD s

/-- The marker `'operation_id='` the source splits the returned `href`
on (source line 106). -/
def operation_id_marker : List Char :=
  ['o', 'p', 'e', 'r', 'a', 't', 'i', 'o', 'n', '_', 'i', 'd', '=']

/-- Outcome of `POST /resources/upload`: transport failure, or a response
with a status code and the optional `href` field of the JSON body
(`response.json().get('href', '')` defaults an absent field to `""`). -/
inductive UploadResp where
  | exc : UploadResp
  | resp : Nat → Option (List Char) → UploadResp
deriving DecidableEq

/-- `YandexDiskClient.upload_by_url` (source lines 80–116), with the poll
oracle passed through to `_check_upload_status`.  Returns
(result, whether `_check_upload_status` was invoked).

```python
response = requests.post(url, headers=self.headers, params=params)
response.raise_for_status()
operation_id = response.json().get('href', '').split('operation_id=')[-1]
if operation_id:
    return self._check_upload_status(operation_id, save_path)
return True
```
(`except requests.exceptions.RequestException: return False`). -/
def upload_by_url (post : UploadResp) (polls : Nat → PollResp) :
    Bool × Bool :=
  match post with
  | UploadResp.exc => (false, false)
  | UploadResp.resp code href =>
    if raise_for_status code then (false, false)
    else
      let operation_id := split_last (href.getD []) operation_id_marker
      if operation_id ≠ [] then (check_upload_status polls, true)
      else (true, false)

/-- C2 counterexample: an initiation response whose `href` is non-empty but
contains no `operation_id=` marker.  `split('operation_id=')[-1]` then
yields the whole `href`, which is truthy, so the status endpoint IS polled
— and with the poll reporting `failed` the call returns failure, not
success.  The claim predicts (success, no polling) here. -/
theorem claim_C2_counterexample :
    ¬((upload_by_url
          (UploadResp.resp 202 (some "https://disk.example/upload?sig=abc".toList))
          (fun _ => PollResp.resp 200 (some "failed") none (some "error"))).1
        = true ∧
      (upload_by_url
          (UploadResp.resp 202 (some "https://disk.example/upload?sig=abc".toList))
          (fun _ => PollResp.resp 200 (some "failed") none (some "error"))).2
        = false) := by
  decide

/-- C2 amended: for every upload-initiation response (with a non-error
status code) from which the extracted operation identifier is empty — in
particular when the returned reference string is empty or absent —
`upload_by_url` returns success without polling the operation-status
endpoint.  A non-empty reference string without the `operation_id=` marker
is instead taken wholesale as the operation identifier and polled. -/
theorem claim_C2_amended (code : Nat) (href : Option (List Char))
    (polls : Nat → PollResp)
    (hok : raise_for_status code = false)
    (hid : split_last (href.getD []) operation_id_marker = []) :
    upload_by_url (UploadResp.resp code href) polls = (true, false) := by
  simp [upload_by_url, hok, hid]

/-- Witness for C2 (amended) at a 202 response with an absent `href`. -/
theorem claim_C2_witness :
    (raise_for_status 202 = false ∧
      split_last ((none : Option (List Char)).getD []) operation_id_marker
        = []) ∧
      upload_by_url (UploadResp.resp 202 none)
          (fun _ => PollResp.resp 200 (some "failed") none (some "error"))
        = (true, false) :=
  ⟨⟨by decide, by decide⟩, claim_C2_amended 202 none _ (by decide) (by decide)⟩

/-! ## `YandexDiskClient.create_folder` (source lines 41–78) -/

/-- The storage API surface `create_folder` touches: the `GET /resources`
existence probe and the `PUT /resources` folder creation, each taking and
returning the remote state `σ`. -/
structure RemoteApi (σ : Type) where
  get : String → σ → ReqResult × σ
  put : String → σ → ReqResult × σ

/-- `YandexDiskClient.create_folder`, instrumented with the number of PUT
requests issued.

```python
check_response = requests.get(url, headers=self.headers, params={'path': folder_name})
if check_response.status_code == 200:
    return True
response = requests.put(url, headers=self.headers, params=params)
if response.status_code in [201, 409]:
    return True
else:
    return False
```
(`except requests.exceptions.RequestException: return False`). -/
def create_folder {σ : Type} (api : RemoteApi σ) (folder_name : String)
    (s : σ) : Bool × Nat × σ :=
  match api.get folder_name s with
  | (ReqResult.exc, s1) => (false, 0, s1)
  | (ReqResult.status code, s1) =>
    if code = 200 then (true, 0, s1)
    else
      match api.put folder_name s1 with
      | (ReqResult.exc, s2) => (false, 1, s2)
      | (ReqResult.status code2, s2) =>
        if code2 = 201 ∨ code2 = 409 then (true, 1, s2) else (false, 1, s2)

/-- A well-behaved remote disk with the response semantics of the storage
API (spec §6): `GET` answers 200 iff the path exists, 404 otherwise; `PUT`
creates the folder and answers 201, or answers 409 when it already
exists. -/
def diskApi : RemoteApi (List String) where
  get := fun p s =>
    (if p ∈ s then ReqResult.status 200 else ReqResult.status 404, s)
  put := fun p s =>
    if p ∈ s then (ReqResult.status 409, s) else (ReqResult.status 201, p :: s)

/-- C5: against a well-behaved remote disk, `create_folder` is idempotent:
called twice with the same path (threading the remote state) it returns
success both times; when the first existence probe answers HTTP 200 the
first call issues no PUT; and at most one PUT is issued across the two
calls. -/
theorem claim_C5_create_folder_idempotent (s : List String) (path : String) :
    (create_folder diskApi path s).1 = true ∧
      (create_folder diskApi path ((create_folder diskApi path s).2.2)).1
        = true ∧
      ((diskApi.get path s).1 = ReqResult.status 200 →
        (create_folder diskApi path s).2.1 = 0) ∧
      (create_folder diskApi path s).2.1 +
        (create_folder diskApi path ((create_folder diskApi path s).2.2)).2.1
        ≤ 1 := by
  by_cases h : path ∈ s <;> simp [create_folder, diskApi, h]

/-- Witness for C5: an initially empty disk and the folder `"SPD-142"`,
plus the probe-reports-existence case on a disk already holding it. -/
theorem claim_C5_witness :
    ((create_folder diskApi "SPD-142" ([] : List String)).1 = true ∧
      (create_folder diskApi "SPD-142"
          ((create_folder diskApi "SPD-142" ([] : List String)).2.2)).1
        = true ∧
      (create_folder diskApi "SPD-142" ([] : List String)).2.1 +
        (create_folder diskApi "SPD-142"
            ((create_folder diskApi "SPD-142" ([] : List String)).2.2)).2.1
        ≤ 1) ∧
      (create_folder diskApi "SPD-142" (["SPD-142"] : List String)).2.1 = 0 :=
  ⟨⟨(claim_C5_create_folder_idempotent [] "SPD-142").1,
    (claim_C5_create_folder_idempotent [] "SPD-142").2.1,
    (claim_C5_create_folder_idempotent [] "SPD-142").2.2.2⟩,
    (claim_C5_create_folder_idempotent ["SPD-142"] "SPD-142").2.2.1 (by decide)⟩

/-! ## `BackupManager._get_remote_file_size` (source lines 327–343) -/

/-- Outcome of the `requests.head(url)` size probe: an exception in
transit, or a response carrying its headers.  `requests` looks header
names up case-insensitively; keys here are the normalized lowercase
names. -/
inductive ProbeResult where
  | exc : ProbeResult
  | ok : List (String × String) → ProbeResult
deriving DecidableEq

/-- Helper for `pyInt`: a nonempty all-digit run, as a number. -/
def parseDigits (l : List Char) : Option Nat :=
  if l ≠ [] ∧ l.all Char.isDigit then
    some (l.foldl (fun n c => 10 * n + (c.toNat - '0'.toNat)) 0)
  else none

/-- Python `str.strip()` with no argument: drop whitespace from both
ends. -/
def pyStrip (l : List Char) : List Char :=
  ((l.dropWhile Char.isWhitespace).reverse.dropWhile Char.isWhitespace).reverse

/-- Python `int(s)` on a string: optional surrounding whitespace, an
optional sign, then a nonempty digit run; anything else raises
`ValueError` (`none` here).  CPython additionally accepts underscore
digit grouping and non-ASCII digits; no claim depends on those. -/
def pyInt (s : String) : Option Int :=
  match pyStrip s.toList with
  | '-' :: rest => (parseDigits rest).map (fun n => -(n : Int))
  | '+' :: rest => (parseDigits rest).map (fun n => (n : Int))
  | l => (parseDigits l).map (fun n => (n : Int))

/-- `BackupManager._get_remote_file_size`:

```python
try:
    response = requests.head(url)
    if 'content-length' in response.headers:
        return int(response.headers['content-length'])
    return 0
except:
    return 0
```
The bare `except:` also swallows the `ValueError` that a malformed header
value makes `int()` raise. -/
def get_remote_file_size (r : ProbeResult) : Int :=
  match r with
  | ProbeResult.exc => 0
  | ProbeResult.ok headers =>
    match headers.lookup "content-length" with
    | none => 0
    | some v =>
      match pyInt v with
      | none => 0
      | some n => n

/-- The `content-length` header of the probe response, when the probe
reached a response at all. -/
def probe_content_length : ProbeResult → Option String
  | ProbeResult.exc => none
  | ProbeResult.ok headers => headers.lookup "content-length"

/-- C8 counterexample: a probe response whose `content-length` header is
`"-1"`.  `int("-1")` succeeds, so the recorded size is the negative value
`-1` — not a non-negative integer as the claim states. -/
theorem claim_C8_counterexample :
    get_remote_file_size (ProbeResult.ok [("content-length", "-1")]) < 0 := by
  decide

/-- C8 amended: the recorded size is 0 whenever the probe fails or the
`content-length` header is missing or unparsable, and otherwise is exactly
the integer the header value parses to — which is non-negative whenever
that parsed value is non-negative, but is recorded as-is (negative) when
the remote reports a negative `content-length`. -/
theorem claim_C8_amended (r : ProbeResult) :
    (probe_content_length r = none → get_remote_file_size r = 0) ∧
      (∀ v, probe_content_length r = some v → pyInt v = none →
        get_remote_file_size r = 0) ∧
      (∀ v n, probe_content_length r = some v → pyInt v = some n →
        get_remote_file_size r = n) ∧
      (∀ v n, probe_content_length r = some v → pyInt v = some n → 0 ≤ n →
        0 ≤ get_remote_file_size r) := by
  cases r with
  | exc => exact ⟨fun _ => rfl, fun v h => by simp [probe_content_length] at h,
      fun v n h => by simp [probe_content_length] at h,
      fun v n h => by simp [probe_content_length] at h⟩
  | ok headers =>
    refine ⟨fun h => ?_, fun v h hv => ?_, fun v n h hv => ?_,
      fun v n h hv hn => ?_⟩
    · simp only [probe_content_length] at h
      simp [get_remote_file_size, h]
    · simp only [probe_content_length] at h
      simp [get_remote_file_size, h, hv]
    · simp only [probe_content_length] at h
      simp [get_remote_file_size, h, hv]
    · simp only [probe_content_length] at h
      simp [get_remote_file_size, h, hv, hn]

/-- Witness for C8 (amended): a failed probe records 0; a probe answering
`content-length: 4242` records 4242. -/
theorem claim_C8_witness :
    (probe_content_length ProbeResult.exc = none ∧
      get_remote_file_size ProbeResult.exc = 0) ∧
      (pyInt "4242" = some 4242 ∧
        get_remote_file_size (ProbeResult.ok [("content-length", "4242")])
          = 4242) :=
  ⟨⟨by decide, (claim_C8_amended ProbeResult.exc).1 (by decide)⟩,
    ⟨by decide,
      (claim_C8_amended (ProbeResult.ok [("content-length", "4242")])).2.2.1
        "4242" 4242 (by decide) (by decide)⟩⟩

/-! ## `CataasClient` (source lines 165–200) -/

/-- Byte values `requests.utils.quote` (= `urllib.parse.quote`) leaves
unescaped with its default `safe='/'`: ASCII letters, digits,
`_`, `.`, `-`, `~`, and `/`. -/
def quote_safe_byte (b : Nat) : Bool :=
  decide ((65 ≤ b ∧ b ≤ 90) ∨ (97 ≤ b ∧ b ≤ 122) ∨ (48 ≤ b ∧ b ≤ 57) ∨
    b = 95 ∨ b = 46 ∨ b = 45 ∨ b = 126 ∨ b = 47)

/-- Upper-case hexadecimal digit for a value below 16. -/
def hex_digit (n : Nat) : Char :=
  if n < 10 then Char.ofNat (48 + n) else Char.ofNat (55 + n)

/-- `requests.utils.quote`: percent-encode every UTF-8 byte outside the
safe set. -/
def py_quote (s : String) : String :=
  String.mk (s.toUTF8.toList.foldr (fun b acc =>
    let n := b.toNat
    if quote_safe_byte n then Char.ofNat n :: acc
    else '%' :: hex_digit (n / 16) :: hex_digit (n % 16) :: acc) [])

/-- `CataasClient.get_cat_image_url` (source lines 174–200):

```python
url = f"{self.BASE_URL}/cat/says/{requests.utils.quote(text)}"
response = requests.head(url)
if response.status_code == 200:
    return url
return None
```
(`except requests.exceptions.RequestException: return None`). -/
def get_cat_image_url (head_resp : ReqResult) (text : String) :
    Option String :=
  let url := "https://cataas.com" ++ "/cat/says/" ++ py_quote text
  match head_resp with
  | ReqResult.exc => none
  | ReqResult.status code => if code = 200 then some url else none

/-! ## `BackupManager` (source lines 203–372) -/

/-- The `FileInfo` dataclass (source lines 15–22). -/
structure FileInfo where
  filename : String
  size_bytes : Int
  text : String
  download_url : String
  yandex_path : String
deriving DecidableEq, Repr

/-- A Python exception reaching `run_backup`'s top-level handler. -/
inductive PyExc where
  | nameError : String → PyExc
deriving DecidableEq

/-- Observable local side effect of a run: one attempted write of the JSON
file, tagged with whether it succeeded.  Log output is not modelled. -/
inductive Effect where
  | jsonWriteAttempt : String → Bool → Effect
deriving DecidableEq

/-- `BackupManager._save_to_json` (source lines 345–372): nothing is
written when `uploaded_files` is empty; otherwise one write of
`backup_info_<group>.json` is attempted, and an `IOError` is caught,
logged and swallowed (lines 371–372), so no failure flows back to the
caller either way. -/
def save_to_json (uploaded_files : List FileInfo) (netology_group : String)
    (write_ok : Bool) : List Effect :=
  if uploaded_files.isEmpty then []
  else
    [Effect.jsonWriteAttempt ("backup_info_" ++ netology_group ++ ".json")
      write_ok]

/-- Every remote/local answer a run could consume, fixed up front: the
cataas HEAD probe, the folder GET probe and PUT, the upload POST, the
status polls, the size probe, and whether the JSON write would succeed.
Everything but `cataas_head` is unreachable in the source as written (see
`run_backup_try`). -/
structure Env where
  cataas_head : ReqResult
  folder_get : ReqResult
  folder_put : ReqResult
  upload_post : UploadResp
  polls : Nat → PollResp
  size_probe : ProbeResult
  json_write_ok : Bool

/-- The body of `BackupManager.run_backup`'s `try:` block (source lines
255–303).  Stage 1 resolves the image URL and aborts with `False` on
failure (lines 259–263).  Stage 2 (line 267) evaluates
`YandexDiskUploader(yandex_token)` — but the module defines the storage
client under the name `YandexDiskClient` and defines no
`YandexDiskUploader`, so the name lookup raises `NameError` here, before
any storage call.  Lines 269–303 (`create_folder`, `upload_by_url`,
`FileInfo` construction, `_save_to_json`) are therefore unreachable from
`run_backup`; their logic is embedded separately above. -/
def run_backup_try (env : Env) (uploaded_files : List FileInfo)
    (text : String) (_yandex_token : String) :
    Except PyExc (Bool × List FileInfo × List Effect) :=
  match get_cat_image_url env.cataas_head text with
  | none => Except.ok (false, uploaded_files, [])
  | some _image_url =>
    Except.error (PyExc.nameError "name YandexDiskUploader is not defined")

/-- `BackupManager.run_backup` (source lines 240–307): the top-level
`except Exception` handler (lines 305–307) logs any exception from the
`try:` block and returns `False`; the `uploaded_files` list stays as it
was when the exception fired.  Returns
(result, uploaded_files, local effects). -/
def run_backup (env : Env) (uploaded_files : List FileInfo)
    (text : String) (yandex_token : String) :
    Bool × List FileInfo × List Effect :=
  match run_backup_try env uploaded_files text yandex_token with
  | Except.ok r => r
  | Except.error _ => (false, uploaded_files, [])

/-- C1: for every caption text, credential token, prior `uploaded_files`
state and behavior of the remote services, `run_backup` returns failure,
never success; and every run that passes the image-resolution stage ends
in the `NameError` raised by the `YandexDiskUploader(...)` reference
(the class is named `YandexDiskClient`), which the top-level handler
converts to the failure result. -/
theorem claim_C1_run_backup_never_succeeds (env : Env)
    (uploaded_files : List FileInfo) (text yandex_token : String) :
    (run_backup env uploaded_files text yandex_token).1 = false ∧
      (∀ url, get_cat_image_url env.cataas_head text = some url →
        run_backup_try env uploaded_files text yandex_token
          = Except.error
              (PyExc.nameError "name YandexDiskUploader is not defined")) := by
  constructor
  · unfold run_backup run_backup_try
    cases h : get_cat_image_url env.cataas_head text <;> simp
  · intro url hurl
    unfold run_backup_try
    rw [hurl]

/-- Witness for C1: a run whose cataas probe answers 200 reaches the
`NameError` and returns failure. -/
theorem claim_C1_witness :
    (run_backup
        ⟨ReqResult.status 200, ReqResult.exc, ReqResult.exc, UploadResp.exc,
          fun _ => PollResp.exc, ProbeResult.exc, true⟩
        [] "hello" "secret").1 = false ∧
      run_backup_try
          ⟨ReqResult.status 200, ReqResult.exc, ReqResult.exc, UploadResp.exc,
            fun _ => PollResp.exc, ProbeResult.exc, true⟩
          [] "hello" "secret"
        = Except.error
            (PyExc.nameError "name YandexDiskUploader is not defined") :=
  ⟨(claim_C1_run_backup_never_succeeds _ [] "hello" "secret").1,
    (claim_C1_run_backup_never_succeeds _ [] "hello" "secret").2 _ rfl⟩

/-- C9: whenever the cataas image probe answers a non-200 status,
`run_backup` returns failure, appends zero `UploadRecord` entries
(`uploaded_files` is unchanged), and performs no JSON file write (no local
effect at all). -/
theorem claim_C9_resolve_failure_aborts (env : Env)
    (uploaded_files : List FileInfo) (text yandex_token : String)
    (code : Nat) (hc : env.cataas_head = ReqResult.status code)
    (h200 : code ≠ 200) :
    run_backup env uploaded_files text yandex_token
      = (false, uploaded_files, []) := by
  unfold run_backup run_backup_try get_cat_image_url
  rw [hc]
  simp [h200]

/-- Witness for C9: the cataas probe answers 404. -/
theorem claim_C9_witness :
    (ReqResult.status 404 = ReqResult.status 404 ∧ (404 : Nat) ≠ 200) ∧
      run_backup
          ⟨ReqResult.status 404, ReqResult.status 200, ReqResult.status 201,
            UploadResp.exc, fun _ => PollResp.exc, ProbeResult.exc, true⟩
          [] "cat" "token"
        = (false, [], []) :=
  ⟨⟨rfl, by decide⟩,
    claim_C9_resolve_failure_aborts _ [] "cat" "token" 404 rfl (by decide)⟩

/-- C10 (code bug): an environment in which every remote stage would
succeed — cataas answers 200, the folder probe 404 and the PUT 201, the
upload POST 202 with an href carrying an operation id, the first poll
reports success, the size probe answers a content-length — and only the
local JSON write fails.  The spec says such a run still reports overall
success (the write failure is swallowed); the code instead raises
`NameError` at the `YandexDiskUploader(...)` construction (source line
267), so the run returns failure and the upload stage is never reached. -/
theorem claim_C10_code_bug_write_failure_run :
    run_backup
        ⟨ReqResult.status 200, ReqResult.status 404, ReqResult.status 201,
          UploadResp.resp 202
            (some "https://ya.example/op?operation_id=33".toList),
          fun _ => PollResp.resp 200 (some "success") (some 100) none,
          ProbeResult.ok [("content-length", "4242")], false⟩
        [] "cat" "token"
      = (false, [], []) ∧
      run_backup_try
          ⟨ReqResult.status 200, ReqResult.status 404, ReqResult.status 201,
            UploadResp.resp 202
              (some "https://ya.example/op?operation_id=33".toList),
            fun _ => PollResp.resp 200 (some "success") (some 100) none,
            ProbeResult.ok [("content-length", "4242")], false⟩
          [] "cat" "token"
        = Except.error
            (PyExc.nameError "name YandexDiskUploader is not defined") :=
  ⟨rfl, rfl⟩

end CatBackup
